import Mathlib

/-!
Shallow embedding of the jarvis-research pipeline scripts
(`src/paper_tracker.py`, `src/news_monitor.py`, `src/paper_tracker_v2.py`)
together with theorems settling the specification claims about them.

Modelling conventions:
* Python strings are Lean `String`s; the Python string primitives used by the
  scripts (`in`, `lower`, `strip`, `replace`, slicing, `split`, `startswith`,
  lexicographic `<=`) are re-implemented below on `List Char` so that every
  definition evaluates inside the kernel.
* Raw fetched documents are modelled up to the regex-match lists the scripts
  extract from them: a regex engine is outside the embedding, so an adapter
  takes the list of match groups the Python `re` calls would produce.
  An absent (falsy) fetch result is `Option.none`.
* `json.load` on a file is modelled by a file-content datatype: the file is
  absent, is unparseable (in which case `json.load` raises), or parses to the
  structured value the script reads.
* External effects (Telegram delivery, the external reviewer) are modelled by
  boolean/optional inputs; a run is a pure function from its inputs and the
  loaded tracking state to a record of its observable outcome (digest built,
  digest printed locally, state written back).
-/

/-- Boolean test that the first character list is a prefix of the second
(Python `startswith` on the underlying code points). -/
def charsPrefix : List Char → List Char → Bool
  | [], _ => true
  | _ :: _, [] => false
  | a :: as, b :: bs => a == b && charsPrefix as bs

/-- Boolean substring test (Python `pat in s`). -/
def charsInfix (pat : List Char) : List Char → Bool
  | [] => charsPrefix pat []
  | c :: rest => charsPrefix pat (c :: rest) || charsInfix pat rest

/-- Python `pat in s` on strings. -/
def strContains (s pat : String) : Bool := charsInfix pat.data s.data

/-- Python `s.startswith(pat)`. -/
def strStartsWith (s pat : String) : Bool := charsPrefix pat.data s.data

/-- Lexicographic code-point comparison of character lists: Python string `<=`. -/
def lexLe : List Char → List Char → Bool
  | [], _ => true
  | _ :: _, [] => false
  | a :: as, b :: bs =>
    if a.toNat < b.toNat then true
    else if b.toNat < a.toNat then false
    else lexLe as bs

/-- Python `s.lower()` (ASCII case folding, which covers every keyword and
identifier the scripts compare). -/
def lowerStr (s : String) : String := String.mk (s.data.map Char.toLower)

/-- Python `s.replace('\n', ' ')`. -/
def replaceNl (s : String) : String :=
  String.mk (s.data.map fun c => if c == '\n' then ' ' else c)

/-- Python `s.strip()`. -/
def stripStr (s : String) : String :=
  String.mk (((s.data.dropWhile Char.isWhitespace).reverse.dropWhile Char.isWhitespace).reverse)

/-- Python `s[:n]` (slicing counts code points). -/
def takeStr (s : String) (n : Nat) : String := String.mk (s.data.take n)

/-- Python `s.rstrip('/')`. -/
def rstripSlash (s : String) : String :=
  String.mk ((s.data.reverse.dropWhile fun c => c == '/').reverse)

/-- Python `s.lstrip('/')`. -/
def lstripSlash (s : String) : String :=
  String.mk (s.data.dropWhile fun c => c == '/')

/-- Left-to-right non-overlapping split on a separator, the scan of Python
`s.split(sep)`.  The `Nat` fuel argument makes the recursion structural; it is
always called with the length of the list, which bounds the recursion depth. -/
def splitOnFuel (sep : List Char) : Nat → List Char → List (List Char)
  | _, [] => [[]]
  | 0, s => [s]
  | fuel + 1, c :: rest =>
    if sep ≠ [] ∧ charsPrefix sep (c :: rest) then
      [] :: splitOnFuel sep fuel (rest.drop (sep.length - 1))
    else
      match splitOnFuel sep fuel rest with
      | [] => [[c]]
      | g :: gs => (c :: g) :: gs

/-- Python `s.split(sep)` for a non-empty separator. -/
def splitOnStr (s sep : String) : List String :=
  (splitOnFuel sep.data s.data.length s.data).map String.mk

/-- Ascending-by-key comparison used by both paper scripts: Python
`sort(key=lambda x: (-score(x), key(x)))`.  `a` comes no later than `b` when
`a` has the strictly larger score, or the scores tie and `a`'s string key is
lexicographically no larger. -/
def scoreKeyLe {α : Type} (score : α → Nat) (key : α → String) (a b : α) : Prop :=
  score b < score a ∨ (score a = score b ∧ lexLe (key a).data (key b).data = true)

instance {α : Type} (score : α → Nat) (key : α → String) :
    DecidableRel (scoreKeyLe score key) := fun a b => by
  unfold scoreKeyLe
  infer_instance

theorem lexLe_total : ∀ a b : List Char, lexLe a b = true ∨ lexLe b a = true := by
  intro a
  induction a with
  | nil => intro b; left; rfl
  | cons x xs ih =>
    intro b
    cases b with
    | nil => right; rfl
    | cons y ys =>
      by_cases h1 : x.toNat < y.toNat
      · left
        simp [lexLe, h1]
      · by_cases h2 : y.toNat < x.toNat
        · right
          simp [lexLe, h2]
        · rcases ih ys with h | h
          · left
            simp [lexLe, h1, h2, h]
          · right
            simp [lexLe, h1, h2, h]

theorem lexLe_trans : ∀ a b c : List Char,
    lexLe a b = true → lexLe b c = true → lexLe a c = true := by
  intro a
  induction a with
  | nil => intro b c _ _; rfl
  | cons x xs ih =>
    intro b c hab hbc
    cases b with
    | nil => simp [lexLe] at hab
    | cons y ys =>
      cases c with
      | nil => simp [lexLe] at hbc
      | cons z zs =>
        simp only [lexLe] at hab hbc ⊢
        by_cases hxy : x.toNat < y.toNat
        · by_cases hyz : y.toNat < z.toNat
          · have : x.toNat < z.toNat := Nat.lt_trans hxy hyz
            simp [this]
          · by_cases hzy : z.toNat < y.toNat
            · simp [hyz, hzy] at hbc
            · have hyzeq : y.toNat = z.toNat := Nat.le_antisymm (Nat.le_of_not_lt hzy) (Nat.le_of_not_lt hyz)
              have : x.toNat < z.toNat := hyzeq ▸ hxy
              simp [this]
        · by_cases hyx : y.toNat < x.toNat
          · simp [hxy, hyx] at hab
          · have hxyeq : x.toNat = y.toNat := Nat.le_antisymm (Nat.le_of_not_lt hyx) (Nat.le_of_not_lt hxy)
            by_cases hyz : y.toNat < z.toNat
            · have : x.toNat < z.toNat := hxyeq ▸ hyz
              simp [this]
            · by_cases hzy : z.toNat < y.toNat
              · simp [hyz, hzy] at hbc
              · have hyzeq : y.toNat = z.toNat := Nat.le_antisymm (Nat.le_of_not_lt hzy) (Nat.le_of_not_lt hyz)
                have hxz : ¬ x.toNat < z.toNat := by omega
                have hzx : ¬ z.toNat < x.toNat := by omega
                rw [if_neg hxy, if_neg hyx] at hab
                rw [if_neg hyz, if_neg hzy] at hbc
                rw [if_neg hxz, if_neg hzx]
                exact ih ys zs hab hbc

instance {α : Type} (score : α → Nat) (key : α → String) :
    IsTotal α (scoreKeyLe score key) := by
  constructor
  intro a b
  unfold scoreKeyLe
  rcases Nat.lt_trichotomy (score a) (score b) with h | h | h
  · right; left; exact h
  · rcases lexLe_total (key a).data (key b).data with hk | hk
    · left; right; exact ⟨h, hk⟩
    · right; right; exact ⟨h.symm, hk⟩
  · left; left; exact h

instance {α : Type} (score : α → Nat) (key : α → String) :
    IsTrans α (scoreKeyLe score key) := by
  constructor
  intro a b c hab hbc
  unfold scoreKeyLe at *
  rcases hab with h1 | ⟨h1, k1⟩
  · rcases hbc with h2 | ⟨h2, _⟩
    · left; exact Nat.lt_trans h2 h1
    · left; omega
  · rcases hbc with h2 | ⟨h2, k2⟩
    · left; omega
    · right; exact ⟨by omega, lexLe_trans _ _ _ k1 k2⟩

namespace PaperTracker

/-- Keyword list `KEYWORDS` of `src/paper_tracker.py`. -/
def KEYWORDS : List String :=
  ["multi-agent", "multi agent", "agent", "collaboration", "cooperation",
   "task planning", "task allocation", "coordination", "llm", "reasoning",
   "autonomous", "swarm", "collective", "distributed", "emergent"]

/-- Paper record built by `parse_papers` in `src/paper_tracker.py`. -/
structure Paper where
  id : String
  link : String
  title : String
  abstract : String
  score : Nat
deriving DecidableEq

/-- Embedding of `parse_papers` (src/paper_tracker.py, lines 30-48).  The three
regex match lists (`ids`, `titles`, `abstracts`) extracted from the fetched
page are the inputs; the body follows the Python loop: per id the i-th title
(default "Unknown"), the i-th abstract with newlines replaced, stripped and cut
to 200 characters (default ""), and a score counting the keywords occurring in
the lowercased title-plus-abstract. -/
def parse_papers (ids titles abstracts : List String) : List Paper :=
  ids.enum.map fun ip =>
    let title := match titles[ip.1]? with
      | some t => stripStr t
      | none => "Unknown"
    let abstract := match abstracts[ip.1]? with
      | some a => takeStr (stripStr (replaceNl a)) 200
      | none => ""
    let score := (KEYWORDS.filter fun kw => strContains (lowerStr (title ++ abstract)) kw).length
    { id := ip.2, link := "https://arxiv.org/" ++ ip.2,
      title := title, abstract := abstract, score := score }

/-- Sort order of `relevant.sort(key=lambda x: (-x['score'], x['id']))`
(src/paper_tracker.py, line 104): score descending, ties by ascending id. -/
def paperLe : Paper → Paper → Prop := scoreKeyLe Paper.score Paper.id

instance : DecidableRel paperLe := fun a b => by
  unfold paperLe
  infer_instance

instance : IsTotal Paper paperLe := by
  unfold paperLe
  infer_instance

instance : IsTrans Paper paperLe := by
  unfold paperLe
  infer_instance

/-- Embedding of the selection in `main` (src/paper_tracker.py, lines 103-104):
keep papers with positive score whose id is not tracked, then sort stably by
`(-score, id)`.  Python's stable `list.sort` is modelled by the stable
`List.insertionSort`. -/
def select (papers : List Paper) (tracked : List String) : List Paper :=
  List.insertionSort paperLe
    (papers.filter fun p => decide (0 < p.score) && !(decide (p.id ∈ tracked)))

/-- Python `'⭐' * n`. -/
def starRepeat (n : Nat) : String := String.join (List.replicate n ("⭐"))

/-- One item block of the Telegram message (src/paper_tracker.py, lines 112-115). -/
def formatPaperLine (i : Nat) (p : Paper) : String :=
  "**" ++ toString i ++ ". " ++ takeStr p.title 55 ++ "...**\n" ++
  "🔗 " ++ p.link ++ "\n" ++
  "📊 相关度: " ++ starRepeat p.score ++ "\n\n"

/-- The full Telegram message built in `main` (src/paper_tracker.py, lines
110-117): a dated header, then one block per paper of `relevant[:5]` numbered
from 1, then the total-count footer. -/
def format_message (date : String) (relevant : List Paper) : String :=
  "🎯 **每日论文推荐** - " ++ date ++ "\n\n" ++
  String.join ((relevant.take 5).enum.map fun ip => formatPaperLine (ip.1 + 1) ip.2) ++
  "---\n共 " ++ toString relevant.length ++ " 篇新论文 | 只显示前 5 篇"

/-- Python `tracked.add(x)` on the tracked set, modelled on a duplicate-free
list: inserting a present identifier is a no-op. -/
def addTracked (tracked : List String) (x : String) : List String :=
  if x ∈ tracked then tracked else tracked ++ [x]

/-- The marking loop `for p in relevant: tracked.add(p['id'])`
(src/paper_tracker.py, lines 128-129). -/
def markAll (tracked : List String) (ps : List Paper) : List String :=
  ps.foldl (fun t p => addTracked t p.id) tracked

/-- Content of the persisted papers file as `json.load` sees it: the file is
absent, raises on parse, or parses to an object with optional `tracked` and
`last_run` fields. -/
inductive StoreFile where
  | absent
  | unparseable
  | parsed (tracked : Option (List String)) (last_run : Option String)
deriving DecidableEq

/-- Embedding of `load_tracked` (src/paper_tracker.py, lines 50-55).  The
Python body checks existence, then calls `json.load` with no exception
handler, so an unparseable file propagates the `json.load` error to the
caller. -/
def load_tracked : StoreFile → Except String (List String × Option String)
  | StoreFile.absent => Except.ok ([], none)
  | StoreFile.unparseable => Except.error "json.load raised on the papers file"
  | StoreFile.parsed t l => Except.ok (t.getD [], l)

/-- Embedding of `save_tracked` (src/paper_tracker.py, lines 57-62): the file
is overwritten with the tracked list and the current timestamp. -/
def save_tracked (tracked : List String) (now : String) : StoreFile :=
  StoreFile.parsed (some tracked) (some now)

/-- Observable outcome of one `main` run of `src/paper_tracker.py`:
the Telegram message if one was built, the items rendered into it, whether the
message was printed to the console (the delivery-failure fallback), and the
tracked list handed to `save_tracked` (none when the file was not rewritten). -/
structure RunResult where
  digest : Option String
  digestItems : List Paper
  printedDigest : Bool
  saved : Option (List String)
deriving DecidableEq

/-- Embedding of `main` (src/paper_tracker.py, lines 95-132) from the parsed
papers on: select the new relevant papers; if none, print and stop without
building a message or rewriting the store; otherwise build the message over
`relevant[:5]`, attempt delivery (`sendOk` is the collaborator's outcome),
print the message on failure, and in either case mark every relevant paper and
save the store. -/
def pt_main (papers : List Paper) (tracked : List String) (date : String)
    (sendOk : Bool) : RunResult :=
  let relevant := select papers tracked
  if relevant = [] then
    { digest := none, digestItems := [], printedDigest := false, saved := none }
  else
    { digest := some (format_message date relevant)
      digestItems := relevant.take 5
      printedDigest := !sendOk
      saved := some (markAll tracked relevant) }

/-- Regex match lists that `parse_papers` extracts from the fetched page. -/
structure ArxivDoc where
  ids : List String
  titles : List String
  abstracts : List String
deriving DecidableEq

/-- Embedding of `fetch_arxiv_list` (src/paper_tracker.py, lines 21-28): the
curl subprocess is run with `check=True`, so a failed fetch raises
`CalledProcessError`; only a successful fetch returns the document. -/
def fetch_arxiv_list (fetched : Option ArxivDoc) : Except String ArxivDoc :=
  match fetched with
  | none => Except.error "subprocess.run raised CalledProcessError"
  | some d => Except.ok d

/-- One whole `main` run of `src/paper_tracker.py` including the fetch: a
failed fetch propagates the exception out of `main`, aborting the run. -/
def pt_run (fetched : Option ArxivDoc) (tracked : List String) (date : String)
    (sendOk : Bool) : Except String RunResult :=
  match fetch_arxiv_list fetched with
  | Except.error e => Except.error e
  | Except.ok doc =>
      Except.ok (pt_main (parse_papers doc.ids doc.titles doc.abstracts) tracked date sendOk)

end PaperTracker

namespace NewsMonitor

/-- Keyword list `KEYWORDS` of `src/news_monitor.py`. -/
def KEYWORDS : List String :=
  ["multi-agent", "multi agent", "agent", "collaboration", "cooperation",
   "task planning", "task allocation", "coordination", "llm", "reasoning",
   "autonomous", "swarm", "collective", "distributed", "emergent",
   "reinforcement learning", "foundation model", "generative ai"]

/-- Tracked-item record persisted in the news config file
(`news_tracked.json`). -/
structure Config where
  tracked_hn : List String
  tracked_gh : List String
  tracked_conf : List String
  tracked_blog : List String
  last_run : Option String
deriving DecidableEq

/-- Content of the news config file as `json.load` sees it. -/
inductive ConfigFile where
  | absent
  | unparseable
  | parsed (c : Config)
deriving DecidableEq

/-- Embedding of `load_config` (src/news_monitor.py, lines 179-184): default
config when the file does not exist; `json.load` is called with no exception
handler, so an unparseable file propagates the error to the caller. -/
def load_config : ConfigFile → Except String Config
  | ConfigFile.absent =>
      Except.ok { tracked_hn := [], tracked_gh := [], tracked_conf := [],
                  tracked_blog := [], last_run := none }
  | ConfigFile.unparseable => Except.error "json.load raised on the news config file"
  | ConfigFile.parsed c => Except.ok c

/-- Embedding of `save_config` (src/news_monitor.py, lines 186-189). -/
def save_config (c : Config) : ConfigFile := ConfigFile.parsed c

/-- Hacker News story assembled by `parse_hacker_news`. -/
structure Story where
  source : String
  title : String
  url : String
  points : Nat
deriving DecidableEq

/-- Match groups `(url, title, points)` of the story regex over the fetched
Hacker News page. -/
structure HNDoc where
  groups : List (String × String × Nat)
deriving DecidableEq

/-- Title filter of `parse_hacker_news` (src/news_monitor.py, line 68). -/
def HN_FILTER : List String := ["ai", "llm", "agent", "gpt", "neural"]

/-- Embedding of `parse_hacker_news` (src/news_monitor.py, lines 58-75): a
falsy fetch result yields `[]`; otherwise each regex match whose lowercased
title mentions an AI keyword becomes a story (relative urls are prefixed with
the site address), and the first five stories are returned. -/
def parse_hacker_news (doc : Option HNDoc) : List Story :=
  match doc with
  | none => []
  | some d =>
    (d.groups.filterMap fun m =>
      if HN_FILTER.any fun kw => strContains (lowerStr m.2.1) kw then
        some { source := "Hacker News", title := m.2.1,
               url := if strStartsWith m.1 ("http") then m.1
                      else "https://news.ycombinator.com/" ++ m.1,
               points := m.2.2 }
      else none).take 5

/-- GitHub repo assembled by `parse_github_trending`. -/
structure Repo where
  source : String
  name : String
  url : String
  stars : Nat
deriving DecidableEq

/-- Match groups `(repo_url, repo_name, stars)` of the repo regex over the
fetched trending page. -/
structure GHDoc where
  groups : List (String × String × Nat)
deriving DecidableEq

/-- Embedding of `parse_github_trending` (src/news_monitor.py, lines 77-95): a
falsy fetch result yields `[]`; otherwise each regex match whose per-repo
description page (a further fetch, `descFetch`) is truthy and whose
name-plus-description mentions a keyword becomes a repo, and the first five
are returned. -/
def parse_github_trending (doc : Option GHDoc) (descFetch : String → Option String) :
    List Repo :=
  match doc with
  | none => []
  | some d =>
    (d.groups.filterMap fun m =>
      match descFetch ("https://github.com" ++ m.1) with
      | none => none
      | some desc =>
        if KEYWORDS.any fun kw => strContains (lowerStr (m.2.1 ++ desc)) kw then
          some { source := "GitHub Trending", name := stripStr m.2.1,
                 url := "https://github.com" ++ m.1, stars := m.2.2 }
        else none).take 5

/-- Conference update assembled by `parse_conferences`. -/
structure ConfUpdate where
  source : String
  title : String
  url : String
  detail : String
deriving DecidableEq

/-- Page test of `parse_conferences` (src/news_monitor.py, lines 105 and 116):
the lowercased page mentions `accepted` or `deadline`. -/
def confHasUpdate (html : String) : Bool :=
  strContains (lowerStr html) ("accepted") || strContains (lowerStr html) ("deadline")

/-- Embedding of `parse_conferences` (src/news_monitor.py, lines 97-124): the
NeurIPS and ICLR pages are fetched; each truthy page passing `confHasUpdate`
contributes one update record, and the first five updates are returned. -/
def parse_conferences (neuripsHtml iclrHtml : Option String) : List ConfUpdate :=
  ((match neuripsHtml with
    | some h =>
      if confHasUpdate h then
        [({ source := "NeurIPS 2025", title := "会议更新",
            url := "https://nips.cc/Conferences/2025", detail := "有新的公告或更新" } : ConfUpdate)]
      else []
    | none => ([] : List ConfUpdate)) ++
   (match iclrHtml with
    | some h =>
      if confHasUpdate h then
        [({ source := "ICLR 2025", title := "会议更新",
            url := "https://iclr.cc/conference/2025", detail := "有新的公告或更新" } : ConfUpdate)]
      else []
    | none => ([] : List ConfUpdate))).take 5

/-- Blog post assembled by `parse_ai_blogs`. -/
structure BlogPost where
  source : String
  title : String
  url : String
deriving DecidableEq

/-- Match groups `(post_url, title)` of the link regex over a fetched blog
page. -/
structure BlogDoc where
  groups : List (String × String)
deriving DecidableEq

/-- Title filter of `parse_ai_blogs` (src/news_monitor.py, line 142). -/
def BLOG_FILTER : List String := ["agent", "llm", "multi", "reasoning", "planning"]

/-- Per-blog part of `parse_ai_blogs` (src/news_monitor.py, lines 135-148): a
falsy fetch result yields nothing; otherwise each regex match with a title
longer than 10 characters, not itself a url, and mentioning a filter keyword
becomes a post whose url is joined to the blog address when relative. -/
def parse_blog (name url : String) (doc : Option BlogDoc) : List BlogPost :=
  match doc with
  | none => []
  | some d =>
    d.groups.filterMap fun m =>
      if 10 < m.2.length ∧ strStartsWith m.2 ("http") = false then
        if BLOG_FILTER.any fun kw => strContains (lowerStr m.2) kw then
          some { source := name, title := takeStr (stripStr m.2) 80,
                 url := if strStartsWith m.1 ("http") then m.1
                        else rstripSlash url ++ "/" ++ lstripSlash m.1 }
        else none
      else none

/-- Embedding of `parse_ai_blogs` (src/news_monitor.py, lines 126-149): the
two configured blogs in order, first five posts overall. -/
def parse_ai_blogs (lilianDoc ruderDoc : Option BlogDoc) : List BlogPost :=
  (parse_blog "Lilac Weng" "https://lilianweng.github.io/" lilianDoc ++
   parse_blog "Sebastian Ruder" "https://ruder.io/" ruderDoc).take 5

/-- New-item filter for Hacker News in `main` (src/news_monitor.py, line 246). -/
def newHn (stories : List Story) (config : Config) : List Story :=
  stories.filter fun n => !(decide (n.url ∈ config.tracked_hn))

/-- New-item filter for GitHub in `main` (src/news_monitor.py, line 247). -/
def newGh (repos : List Repo) (config : Config) : List Repo :=
  repos.filter fun r => !(decide (r.url ∈ config.tracked_gh))

/-- New-item filter for conferences in `main` (src/news_monitor.py, line 248). -/
def newConf (updates : List ConfUpdate) (config : Config) : List ConfUpdate :=
  updates.filter fun c => !(decide (c.url ∈ config.tracked_conf))

/-- New-item filter for blogs in `main` (src/news_monitor.py, line 249). -/
def newBlog (posts : List BlogPost) (config : Config) : List BlogPost :=
  posts.filter fun b => !(decide (b.url ∈ config.tracked_blog))

/-- News section of `format_message` (src/news_monitor.py, lines 197-202). -/
def fmtStories (items : List Story) : String :=
  if items = [] then "" else
  "📰 **技术新闻**\n" ++
  String.join ((items.take 5).enum.map fun ip =>
    toString (ip.1 + 1) ++ ". " ++ takeStr ip.2.title 60 ++ "...\n" ++
    "   👍 " ++ toString ip.2.points ++ " points | [链接](" ++ ip.2.url ++ ")\n") ++
  "\n"

/-- GitHub section of `format_message` (src/news_monitor.py, lines 204-209). -/
def fmtRepos (items : List Repo) : String :=
  if items = [] then "" else
  "⭐ **GitHub Trending**\n" ++
  String.join ((items.take 5).enum.map fun ip =>
    toString (ip.1 + 1) ++ ". " ++ ip.2.name ++ "\n" ++
    "   ⭐ " ++ toString ip.2.stars ++ " | [链接](" ++ ip.2.url ++ ")\n") ++
  "\n"

/-- Conference section of `format_message` (src/news_monitor.py, lines 211-216). -/
def fmtConfs (items : List ConfUpdate) : String :=
  if items = [] then "" else
  "🎓 **顶会动态**\n" ++
  String.join ((items.take 3).enum.map fun ip =>
    toString (ip.1 + 1) ++ ". " ++ ip.2.source ++ ": " ++ ip.2.detail ++ "\n" ++
    "   [链接](" ++ ip.2.url ++ ")\n") ++
  "\n"

/-- Blog section of `format_message` (src/news_monitor.py, lines 218-222). -/
def fmtBlogs (items : List BlogPost) : String :=
  if items = [] then "" else
  "📝 **博客更新**\n" ++
  String.join ((items.take 3).enum.map fun ip =>
    toString (ip.1 + 1) ++ ". " ++ ip.2.source ++ ": " ++ ip.2.title ++ "\n" ++
    "   [链接](" ++ ip.2.url ++ ")\n")

/-- Embedding of `format_message` (src/news_monitor.py, lines 191-225). -/
def format_message (now : String) (news : List Story) (gh : List Repo)
    (conf : List ConfUpdate) (blog : List BlogPost) : String :=
  "🔬 **科研资讯速递** - " ++ now ++ "\n\n" ++
  fmtStories news ++ fmtRepos gh ++ fmtConfs conf ++ fmtBlogs blog ++
  "\n---\n🤖 Jarvis 科研助理"

/-- Observable outcome of one `main` run of `src/news_monitor.py`: the new
items per category, the message if one was built, whether it was printed to
the console (delivery-failure fallback), and the config handed to
`save_config` (none when the file was not rewritten). -/
structure RunResult where
  new_hn : List Story
  new_gh : List Repo
  new_conf : List ConfUpdate
  new_blog : List BlogPost
  digest : Option String
  printedDigest : Bool
  saved : Option Config
deriving DecidableEq

/-- Embedding of `main` (src/news_monitor.py, lines 227-278): parse the four
sources, filter each against its tracked list, and if any category has new
items build the message, attempt delivery (printing the message on failure),
append the new urls to the tracked lists, stamp `last_run` and save; if no
category has new items, print and stop without building a message or touching
the config file. -/
def nm_main (hnDoc : Option HNDoc) (ghDoc : Option GHDoc)
    (descFetch : String → Option String) (neuripsHtml iclrHtml : Option String)
    (lilianDoc ruderDoc : Option BlogDoc) (config : Config) (now : String)
    (sendOk : Bool) : RunResult :=
  let hn_news := parse_hacker_news hnDoc
  let gh_repos := parse_github_trending ghDoc descFetch
  let conf_updates := parse_conferences neuripsHtml iclrHtml
  let blog_posts := parse_ai_blogs lilianDoc ruderDoc
  let new_hn := newHn hn_news config
  let new_gh := newGh gh_repos config
  let new_conf := newConf conf_updates config
  let new_blog := newBlog blog_posts config
  if new_hn = [] ∧ new_gh = [] ∧ new_conf = [] ∧ new_blog = [] then
    { new_hn := new_hn, new_gh := new_gh, new_conf := new_conf, new_blog := new_blog,
      digest := none, printedDigest := false, saved := none }
  else
    { new_hn := new_hn, new_gh := new_gh, new_conf := new_conf, new_blog := new_blog,
      digest := some (format_message now new_hn new_gh new_conf new_blog)
      printedDigest := !sendOk
      saved := some { tracked_hn := config.tracked_hn ++ new_hn.map Story.url,
                      tracked_gh := config.tracked_gh ++ new_gh.map Repo.url,
                      tracked_conf := config.tracked_conf ++ new_conf.map ConfUpdate.url,
                      tracked_blog := config.tracked_blog ++ new_blog.map BlogPost.url,
                      last_run := some now } }

end NewsMonitor

namespace TrackerV2

/-- Keyword list `CONFIG['keywords']` of `src/paper_tracker_v2.py`. -/
def CONFIG_keywords : List String :=
  ["agent", "multi-agent", "collaboration", "coordination",
   "task planning", "llm", "reasoning", "autonomous", "swarm",
   "collective", "reinforcement", "hierarchical", "distributed",
   "emergent", "foundation model"]

/-- Cap `CONFIG['max_papers']` of `src/paper_tracker_v2.py`. -/
def CONFIG_max_papers : Nat := 20

/-- Regex match groups extracted per `<entry>` block of one arXiv API
response (src/paper_tracker_v2.py, lines 52-67): each `re.search` either
fails (`none`) or yields its captured group; `<name>` matches give the
author list. -/
structure Entry where
  id_match : Option String
  title_match : Option String
  summary_match : Option String
  authors : List String
  published_match : Option String
deriving DecidableEq

/-- Paper record built by `fetch_arxiv_papers`. -/
structure Paper where
  id : String
  title : String
  summary : String
  authors : List String
  published : String
  url : String
  raw_score : Nat
  category : String
deriving DecidableEq

/-- Identifier extraction `raw_id.split('/abs/')[-1].split('v')[0]`
(src/paper_tracker_v2.py, line 55).  `split` never returns an empty list, so
the defaults of `getLastD`/`headD` are never used. -/
def extractId (raw_id : String) : String :=
  ((splitOnStr ((splitOnStr raw_id ("/abs/")).getLastD "") ("v"))).headD ""

/-- Body of the per-entry loop of `fetch_arxiv_papers`
(src/paper_tracker_v2.py, lines 51-82): entries without an id are skipped;
title (default "No title") and summary (default "") have newlines replaced and
are stripped; the score counts keywords in the lowercased title-space-summary;
only a positive score yields a paper, with the summary cut to 400 characters
and the first three authors. -/
def processEntry (category : String) (e : Entry) : Option Paper :=
  match e.id_match with
  | none => none
  | some raw_id =>
    let paper_id := extractId raw_id
    let title := match e.title_match with
      | some t => stripStr (replaceNl t)
      | none => "No title"
    let summary := match e.summary_match with
      | some s => stripStr (replaceNl s)
      | none => ""
    let published := e.published_match.getD ("2026-01-01")
    let score :=
      (CONFIG_keywords.filter fun kw =>
        strContains (lowerStr (title ++ " " ++ summary)) kw).length
    if 0 < score then
      some { id := paper_id, title := title, summary := takeStr summary 400,
             authors := e.authors.take 3, published := published,
             url := "https://arxiv.org/abs/" ++ paper_id,
             raw_score := score, category := category }
    else none

/-- Sort order of `papers.sort(key=lambda x: (-x['raw_score'], x['published']))`
(src/paper_tracker_v2.py, line 84): raw score descending, ties by ascending
published date string. -/
def paperLe : Paper → Paper → Prop := scoreKeyLe Paper.raw_score Paper.published

instance : DecidableRel paperLe := fun a b => by
  unfold paperLe
  infer_instance

instance : IsTotal Paper paperLe := by
  unfold paperLe
  infer_instance

instance : IsTrans Paper paperLe := by
  unfold paperLe
  infer_instance

/-- Deduplication loop of `fetch_arxiv_papers` (src/paper_tracker_v2.py,
lines 85-90): keep the first occurrence of every id. -/
def dedupById (seen : List String) : List Paper → List Paper
  | [] => []
  | p :: ps =>
    if p.id ∈ seen then dedupById seen ps
    else p :: dedupById (seen ++ [p.id]) ps

/-- Embedding of `fetch_arxiv_papers` (src/paper_tracker_v2.py, lines 40-92)
from the per-category entry lists on: flatten the per-category entry loops,
sort stably by `(-raw_score, published)`, deduplicate by id keeping first
occurrences, and truncate to `max_papers`. -/
def fetch_arxiv_papers (fetchResults : List (String × List Entry)) : List Paper :=
  let papers := fetchResults.flatMap fun cr => cr.2.filterMap (processEntry cr.1)
  (dedupById [] (List.insertionSort paperLe papers)).take CONFIG_max_papers

/-- One per-paper review returned by the external reviewer. -/
structure Review where
  id : String
  score : Nat
  key_insight : String
  should_read : String
  tags : List String
deriving DecidableEq

/-- Parsed reviewer response (src/paper_tracker_v2.py, lines 94-126); `none`
models every failure of `review_with_claude_code`. -/
structure ReviewResult where
  reviews : List Review
  summary : String
  top_pick : String
deriving DecidableEq

/-- Dictionary `{r['id']: r for r in reviews}` followed by `.get(id)`
(src/paper_tracker_v2.py, lines 142 and 145): a later review with the same id
overwrites an earlier one, hence the lookup over the reversed list. -/
def findReview (reviews : List Review) (i : String) : Option Review :=
  reviews.reverse.find? fun r => r.id == i

/-- Icon choice for a reviewed paper (src/paper_tracker_v2.py, lines 147-153). -/
def reviewIcon (should_read : String) : String :=
  if should_read == "yes" then "⭐⭐⭐"
  else if should_read == "maybe" then "⭐"
  else "○"

/-- Python `'⭐' * n`. -/
def starRepeat (n : Nat) : String := String.join (List.replicate n ("⭐"))

/-- One reviewed-paper block of the briefing (src/paper_tracker_v2.py, lines
144-164); a missing review contributes the defaults `should_read = "maybe"`,
no tags and no key insight. -/
def formatReviewed (paper : Paper) (review : Option Review) : String :=
  let should_read := match review with
    | some r => r.should_read
    | none => "maybe"
  let tags := String.intercalate (", ") (match review with
    | some r => r.tags
    | none => [])
  let key_insight := takeStr (match review with
    | some r => r.key_insight
    | none => "") 100
  reviewIcon should_read ++ " **" ++ takeStr paper.title 70 ++ "...**\n" ++
  "📅 " ++ paper.published ++ " | " ++ paper.category ++ "\n" ++
  (if tags == "" then "" else "Tags: " ++ tags ++ "\n") ++
  (if key_insight == "" then "" else "💡 " ++ key_insight ++ "\n") ++
  "🔗 [arXiv](" ++ paper.url ++ ")\n\n"

/-- One raw-score block of the briefing used when no review is available
(src/paper_tracker_v2.py, lines 166-169). -/
def formatRaw (paper : Paper) : String :=
  starRepeat (min paper.raw_score 5) ++ " **" ++ takeStr paper.title 60 ++ "...**\n" ++
  "📅 " ++ paper.published ++ " | [arXiv](" ++ paper.url ++ ")\n\n"

/-- Embedding of `format_briefing` (src/paper_tracker_v2.py, lines 128-173):
`none` when there are no papers; with a review every paper is rendered, and
without one only `papers[:5]` with raw-score stars. -/
def format_briefing (date : String) (papers : List Paper)
    (review_result : Option ReviewResult) : Option String :=
  if papers = [] then none
  else some (
    "📚 **Jarvis 论文简报** - " ++ date ++ "\n\n" ++
    "🔍 从 arXiv 抓取 " ++ toString papers.length ++ " 篇相关论文\n" ++
    (match review_result with
     | some rr =>
        "🧠 Claude Code 智能审阅完成\n\n" ++
        "---\n\n" ++ rr.summary ++ "\n\n" ++ "---\n\n" ++
        String.join (papers.map fun p => formatReviewed p (findReview rr.reviews p.id))
     | none =>
        String.join ((papers.take 5).map formatRaw)) ++
    "---\n🤖 Jarvis AI 论文助手 | 共 " ++ toString papers.length ++ " 篇")

/-- Observable outcome of one `main` run of `src/paper_tracker_v2.py`.  The
script keeps no tracking state at all: nothing is loaded and nothing is
persisted, so the outcome is only what was fetched, built and sent. -/
structure RunResult where
  papers : List Paper
  briefing : Option String
  deliveryAttempted : Bool
  deliveredOk : Bool
  printedBriefing : Bool
deriving DecidableEq

/-- Embedding of `main` (src/paper_tracker_v2.py, lines 207-234): fetch and
filter papers, return early when none were found, otherwise build the briefing
(with the reviewer's result when available), and attempt Telegram delivery,
printing the briefing on failure. -/
def v2_main (fetchResults : List (String × List Entry))
    (review_result : Option ReviewResult) (date : String) (sendOk : Bool) : RunResult :=
  let papers := fetch_arxiv_papers fetchResults
  if papers = [] then
    { papers := papers, briefing := none, deliveryAttempted := false,
      deliveredOk := false, printedBriefing := false }
  else
    let briefing := format_briefing date papers review_result
    let sent := briefing.isSome && sendOk
    { papers := papers, briefing := briefing, deliveryAttempted := true,
      deliveredOk := sent, printedBriefing := !sent }

end TrackerV2

namespace PaperTracker

theorem mem_select {papers : List Paper} {tracked : List String} {p : Paper} :
    p ∈ select papers tracked ↔ p ∈ papers ∧ 0 < p.score ∧ p.id ∉ tracked := by
  unfold select
  rw [List.mem_insertionSort, List.mem_filter]
  simp [and_assoc]

theorem not_mem_select_of_tracked {papers : List Paper} {tracked : List String}
    {p : Paper} (h : p.id ∈ tracked) : p ∉ select papers tracked := by
  intro hmem
  exact (mem_select.mp hmem).2.2 h

theorem markAll_cons (t : List String) (p : Paper) (ps : List Paper) :
    markAll t (p :: ps) = markAll (addTracked t p.id) ps := rfl

theorem mem_addTracked {t : List String} {x y : String} :
    y ∈ addTracked t x ↔ y ∈ t ∨ y = x := by
  unfold addTracked
  by_cases h : x ∈ t
  · rw [if_pos h]
    constructor
    · exact Or.inl
    · rintro (hy | rfl)
      · exact hy
      · exact h
  · rw [if_neg h]
    simp

theorem mem_markAll_of_mem {ps : List Paper} {t : List String} {x : String}
    (h : x ∈ t) : x ∈ markAll t ps := by
  induction ps generalizing t with
  | nil => exact h
  | cons p ps ih =>
    rw [markAll_cons]
    exact ih (mem_addTracked.mpr (Or.inl h))

theorem mem_markAll_of_mem_ps {ps : List Paper} {t : List String} {p : Paper}
    (h : p ∈ ps) : p.id ∈ markAll t ps := by
  induction ps generalizing t with
  | nil => cases h
  | cons q qs ih =>
    rw [markAll_cons]
    rcases List.mem_cons.mp h with rfl | h'
    · exact mem_markAll_of_mem (mem_addTracked.mpr (Or.inr rfl))
    · exact ih h'

theorem select_after_mark (papers : List Paper) (tracked : List String) :
    select papers (markAll tracked (select papers tracked)) = [] := by
  have hf : (papers.filter fun p =>
      decide (0 < p.score) && !(decide (p.id ∈ markAll tracked (select papers tracked)))) = [] := by
    rw [List.filter_eq_nil_iff]
    intro p hp
    by_cases hs : 0 < p.score
    · by_cases ht : p.id ∈ tracked
      · have hm : p.id ∈ markAll tracked (select papers tracked) := mem_markAll_of_mem ht
        simp [hs, hm]
      · have hsel : p ∈ select papers tracked := mem_select.mpr ⟨hp, hs, ht⟩
        have hm : p.id ∈ markAll tracked (select papers tracked) := mem_markAll_of_mem_ps hsel
        simp [hs, hm]
    · simp [hs]
  conv_lhs => rw [select]
  rw [hf]
  rfl

theorem pt_main_noop {papers : List Paper} {tracked : List String}
    (h : select papers tracked = []) (date : String) (sendOk : Bool) :
    pt_main papers tracked date sendOk
      = { digest := none, digestItems := [], printedDigest := false, saved := none } := by
  unfold pt_main
  rw [if_pos h]

theorem pt_main_active {papers : List Paper} {tracked : List String}
    (h : select papers tracked ≠ []) (date : String) (sendOk : Bool) :
    pt_main papers tracked date sendOk
      = { digest := some (format_message date (select papers tracked)),
          digestItems := (select papers tracked).take 5,
          printedDigest := !sendOk,
          saved := some (markAll tracked (select papers tracked)) } := by
  unfold pt_main
  rw [if_neg h]

end PaperTracker

namespace NewsMonitor

theorem mem_newHn {stories : List Story} {config : Config} {s : Story} :
    s ∈ newHn stories config ↔ s ∈ stories ∧ s.url ∉ config.tracked_hn := by
  unfold newHn
  rw [List.mem_filter]
  simp

theorem mem_newGh {repos : List Repo} {config : Config} {r : Repo} :
    r ∈ newGh repos config ↔ r ∈ repos ∧ r.url ∉ config.tracked_gh := by
  unfold newGh
  rw [List.mem_filter]
  simp

theorem mem_newConf {updates : List ConfUpdate} {config : Config} {c : ConfUpdate} :
    c ∈ newConf updates config ↔ c ∈ updates ∧ c.url ∉ config.tracked_conf := by
  unfold newConf
  rw [List.mem_filter]
  simp

theorem mem_newBlog {posts : List BlogPost} {config : Config} {b : BlogPost} :
    b ∈ newBlog posts config ↔ b ∈ posts ∧ b.url ∉ config.tracked_blog := by
  unfold newBlog
  rw [List.mem_filter]
  simp

theorem nm_main_noop {hnDoc : Option HNDoc} {ghDoc : Option GHDoc}
    {descFetch : String → Option String} {neuripsHtml iclrHtml : Option String}
    {lilianDoc ruderDoc : Option BlogDoc} {config : Config} {now : String}
    {sendOk : Bool}
    (h : newHn (parse_hacker_news hnDoc) config = []
       ∧ newGh (parse_github_trending ghDoc descFetch) config = []
       ∧ newConf (parse_conferences neuripsHtml iclrHtml) config = []
       ∧ newBlog (parse_ai_blogs lilianDoc ruderDoc) config = []) :
    nm_main hnDoc ghDoc descFetch neuripsHtml iclrHtml lilianDoc ruderDoc config now sendOk
      = { new_hn := newHn (parse_hacker_news hnDoc) config,
          new_gh := newGh (parse_github_trending ghDoc descFetch) config,
          new_conf := newConf (parse_conferences neuripsHtml iclrHtml) config,
          new_blog := newBlog (parse_ai_blogs lilianDoc ruderDoc) config,
          digest := none, printedDigest := false, saved := none } := by
  unfold nm_main
  rw [if_pos h]

theorem nm_main_active {hnDoc : Option HNDoc} {ghDoc : Option GHDoc}
    {descFetch : String → Option String} {neuripsHtml iclrHtml : Option String}
    {lilianDoc ruderDoc : Option BlogDoc} {config : Config} {now : String}
    {sendOk : Bool}
    (h : ¬(newHn (parse_hacker_news hnDoc) config = []
       ∧ newGh (parse_github_trending ghDoc descFetch) config = []
       ∧ newConf (parse_conferences neuripsHtml iclrHtml) config = []
       ∧ newBlog (parse_ai_blogs lilianDoc ruderDoc) config = [])) :
    nm_main hnDoc ghDoc descFetch neuripsHtml iclrHtml lilianDoc ruderDoc config now sendOk
      = { new_hn := newHn (parse_hacker_news hnDoc) config,
          new_gh := newGh (parse_github_trending ghDoc descFetch) config,
          new_conf := newConf (parse_conferences neuripsHtml iclrHtml) config,
          new_blog := newBlog (parse_ai_blogs lilianDoc ruderDoc) config,
          digest := some (format_message now
            (newHn (parse_hacker_news hnDoc) config)
            (newGh (parse_github_trending ghDoc descFetch) config)
            (newConf (parse_conferences neuripsHtml iclrHtml) config)
            (newBlog (parse_ai_blogs lilianDoc ruderDoc) config)),
          printedDigest := !sendOk,
          saved := some { tracked_hn := config.tracked_hn
                            ++ (newHn (parse_hacker_news hnDoc) config).map Story.url,
                          tracked_gh := config.tracked_gh
                            ++ (newGh (parse_github_trending ghDoc descFetch) config).map Repo.url,
                          tracked_conf := config.tracked_conf
                            ++ (newConf (parse_conferences neuripsHtml iclrHtml) config).map ConfUpdate.url,
                          tracked_blog := config.tracked_blog
                            ++ (newBlog (parse_ai_blogs lilianDoc ruderDoc) config).map BlogPost.url,
                          last_run := some now } } := by
  unfold nm_main
  rw [if_neg h]

end NewsMonitor

namespace TrackerV2

theorem mem_dedupById {l : List Paper} {seen : List String} {p : Paper}
    (h : p ∈ dedupById seen l) : p ∈ l := by
  induction l generalizing seen with
  | nil => cases h
  | cons q qs ih =>
    unfold dedupById at h
    by_cases hq : q.id ∈ seen
    · rw [if_pos hq] at h
      exact List.mem_cons_of_mem _ (ih h)
    · rw [if_neg hq] at h
      rcases List.mem_cons.mp h with rfl | h'
      · exact List.mem_cons_self _ _
      · exact List.mem_cons_of_mem _ (ih h')

theorem dedupById_sublist (seen : List String) (l : List Paper) :
    (dedupById seen l).Sublist l := by
  induction l generalizing seen with
  | nil => simp [dedupById]
  | cons q qs ih =>
    unfold dedupById
    by_cases hq : q.id ∈ seen
    · rw [if_pos hq]
      exact (ih seen).cons _
    · rw [if_neg hq]
      exact (ih _).cons₂ _

theorem processEntry_score_pos {cat : String} {e : Entry} {p : Paper}
    (h : processEntry cat e = some p) : 0 < p.raw_score := by
  unfold processEntry at h
  cases hid : e.id_match with
  | none =>
    rw [hid] at h
    cases h
  | some raw_id =>
    rw [hid] at h
    dsimp only at h
    split at h
    · cases h
      assumption
    · cases h

theorem mem_fetch {fr : List (String × List Entry)} {p : Paper}
    (h : p ∈ fetch_arxiv_papers fr) :
    0 < p.raw_score ∧ ∃ cr ∈ fr, ∃ e ∈ cr.2, processEntry cr.1 e = some p := by
  unfold fetch_arxiv_papers at h
  have h1 := mem_dedupById (List.mem_of_mem_take h)
  rw [List.mem_insertionSort, List.mem_flatMap] at h1
  rcases h1 with ⟨cr, hcr, hp⟩
  rw [List.mem_filterMap] at hp
  rcases hp with ⟨e, he, hpe⟩
  exact ⟨processEntry_score_pos hpe, cr, hcr, e, he, hpe⟩

theorem v2_main_noop {fr : List (String × List Entry)}
    (h : fetch_arxiv_papers fr = []) (review_result : Option ReviewResult)
    (date : String) (sendOk : Bool) :
    v2_main fr review_result date sendOk
      = { papers := fetch_arxiv_papers fr, briefing := none,
          deliveryAttempted := false, deliveredOk := false, printedBriefing := false } := by
  unfold v2_main
  rw [if_pos h]

theorem v2_main_active {fr : List (String × List Entry)}
    (h : fetch_arxiv_papers fr ≠ []) (review_result : Option ReviewResult)
    (date : String) (sendOk : Bool) :
    v2_main fr review_result date sendOk
      = { papers := fetch_arxiv_papers fr,
          briefing := format_briefing date (fetch_arxiv_papers fr) review_result,
          deliveryAttempted := true,
          deliveredOk := (format_briefing date (fetch_arxiv_papers fr) review_result).isSome && sendOk,
          printedBriefing :=
            !((format_briefing date (fetch_arxiv_papers fr) review_result).isSome && sendOk) } := by
  unfold v2_main
  rw [if_neg h]

end TrackerV2

namespace NewsMonitor

theorem nm_main_fields (hnDoc : Option HNDoc) (ghDoc : Option GHDoc)
    (descFetch : String → Option String) (neuripsHtml iclrHtml : Option String)
    (lilianDoc ruderDoc : Option BlogDoc) (config : Config) (now : String)
    (sendOk : Bool) :
    (nm_main hnDoc ghDoc descFetch neuripsHtml iclrHtml lilianDoc ruderDoc config now sendOk).new_hn
        = newHn (parse_hacker_news hnDoc) config ∧
    (nm_main hnDoc ghDoc descFetch neuripsHtml iclrHtml lilianDoc ruderDoc config now sendOk).new_gh
        = newGh (parse_github_trending ghDoc descFetch) config ∧
    (nm_main hnDoc ghDoc descFetch neuripsHtml iclrHtml lilianDoc ruderDoc config now sendOk).new_conf
        = newConf (parse_conferences neuripsHtml iclrHtml) config ∧
    (nm_main hnDoc ghDoc descFetch neuripsHtml iclrHtml lilianDoc ruderDoc config now sendOk).new_blog
        = newBlog (parse_ai_blogs lilianDoc ruderDoc) config := by
  by_cases h : newHn (parse_hacker_news hnDoc) config = []
       ∧ newGh (parse_github_trending ghDoc descFetch) config = []
       ∧ newConf (parse_conferences neuripsHtml iclrHtml) config = []
       ∧ newBlog (parse_ai_blogs lilianDoc ruderDoc) config = []
  · rw [nm_main_noop h]
    exact ⟨rfl, rfl, rfl, rfl⟩
  · rw [nm_main_active h]
    exact ⟨rfl, rfl, rfl, rfl⟩

end NewsMonitor

/-- Claim C1: an identifier already present in the tracking state for its
category is never part of a later run's digest, whatever its score or
metadata in that run.  In `paper_tracker.py` a tracked id survives neither the
selection nor the rendered list `relevant[:5]`; in `news_monitor.py` an item
whose url is tracked for its category survives none of the four per-category
new-item filters, whose output lists are exactly what the message renders
from. -/
theorem claim_C1 :
    (∀ (papers : List PaperTracker.Paper) (tracked : List String) (date : String)
       (sendOk : Bool) (p : PaperTracker.Paper), p.id ∈ tracked →
         p ∉ PaperTracker.select papers tracked ∧
         p ∉ (PaperTracker.pt_main papers tracked date sendOk).digestItems) ∧
    (∀ (hnDoc : Option NewsMonitor.HNDoc) (ghDoc : Option NewsMonitor.GHDoc)
       (descFetch : String → Option String) (neuripsHtml iclrHtml : Option String)
       (lilianDoc ruderDoc : Option NewsMonitor.BlogDoc) (config : NewsMonitor.Config)
       (now : String) (sendOk : Bool),
       (∀ s : NewsMonitor.Story, s.url ∈ config.tracked_hn →
         s ∉ (NewsMonitor.nm_main hnDoc ghDoc descFetch neuripsHtml iclrHtml
                lilianDoc ruderDoc config now sendOk).new_hn) ∧
       (∀ r : NewsMonitor.Repo, r.url ∈ config.tracked_gh →
         r ∉ (NewsMonitor.nm_main hnDoc ghDoc descFetch neuripsHtml iclrHtml
                lilianDoc ruderDoc config now sendOk).new_gh) ∧
       (∀ c : NewsMonitor.ConfUpdate, c.url ∈ config.tracked_conf →
         c ∉ (NewsMonitor.nm_main hnDoc ghDoc descFetch neuripsHtml iclrHtml
                lilianDoc ruderDoc config now sendOk).new_conf) ∧
       (∀ b : NewsMonitor.BlogPost, b.url ∈ config.tracked_blog →
         b ∉ (NewsMonitor.nm_main hnDoc ghDoc descFetch neuripsHtml iclrHtml
                lilianDoc ruderDoc config now sendOk).new_blog)) := by
  constructor
  · intro papers tracked date sendOk p hp
    refine ⟨PaperTracker.not_mem_select_of_tracked hp, ?_⟩
    by_cases h : PaperTracker.select papers tracked = []
    · rw [PaperTracker.pt_main_noop h]
      simp
    · rw [PaperTracker.pt_main_active h]
      intro hmem
      exact PaperTracker.not_mem_select_of_tracked hp (List.mem_of_mem_take hmem)
  · intro hnDoc ghDoc descFetch neuripsHtml iclrHtml lilianDoc ruderDoc config now sendOk
    obtain ⟨h1, h2, h3, h4⟩ := NewsMonitor.nm_main_fields hnDoc ghDoc descFetch
      neuripsHtml iclrHtml lilianDoc ruderDoc config now sendOk
    refine ⟨?_, ?_, ?_, ?_⟩
    · intro s hs hmem
      rw [h1] at hmem
      exact (NewsMonitor.mem_newHn.mp hmem).2 hs
    · intro r hr hmem
      rw [h2] at hmem
      exact (NewsMonitor.mem_newGh.mp hmem).2 hr
    · intro c hc hmem
      rw [h3] at hmem
      exact (NewsMonitor.mem_newConf.mp hmem).2 hc
    · intro b hb hmem
      rw [h4] at hmem
      exact (NewsMonitor.mem_newBlog.mp hmem).2 hb

/-- Concrete instantiation of `claim_C1`: a tracked paper id is not selected
again, and a tracked Hacker News url does not pass the new-item filter. -/
theorem claim_C1_witness :
    ((⟨"2501.0001", "u", "t", "a", 3⟩ : PaperTracker.Paper)
        ∉ PaperTracker.select [⟨"2501.0001", "u", "t", "a", 3⟩] ["2501.0001"]) ∧
    ((⟨"Hacker News", "t", "http://u", 5⟩ : NewsMonitor.Story)
        ∉ (NewsMonitor.nm_main none none (fun _ => none) none none none none
            ⟨["http://u"], [], [], [], none⟩ "now" true).new_hn) :=
  ⟨(claim_C1.1 [⟨"2501.0001", "u", "t", "a", 3⟩] ["2501.0001"] "d" true
      ⟨"2501.0001", "u", "t", "a", 3⟩ (by decide)).1,
   (claim_C1.2 none none (fun _ => none) none none none none
      ⟨["http://u"], [], [], [], none⟩ "now" true).1
      ⟨"Hacker News", "t", "http://u", 5⟩ (by decide)⟩

/-- Claim C2 counterexample: loading a persisted state file whose content is
not parseable JSON does not return the default empty state — in both scripts
`json.load` is called with no exception handler, so the load raises to its
caller. -/
theorem claim_C2_counterexample :
    PaperTracker.load_tracked PaperTracker.StoreFile.unparseable
      = Except.error "json.load raised on the papers file" ∧
    NewsMonitor.load_config NewsMonitor.ConfigFile.unparseable
      = Except.error "json.load raised on the news config file" :=
  ⟨rfl, rfl⟩

/-- Claim C2 as amended: loading the tracking state returns the default empty
state (all categories empty, last run null) when no persisted state exists,
and succeeds on any parseable persisted content; but when the persisted
content is unparseable the load raises the `json.load` error to its caller
instead of returning the default state. -/
theorem claim_C2 :
    PaperTracker.load_tracked PaperTracker.StoreFile.absent = Except.ok ([], none) ∧
    NewsMonitor.load_config NewsMonitor.ConfigFile.absent
      = Except.ok { tracked_hn := [], tracked_gh := [], tracked_conf := [],
                    tracked_blog := [], last_run := none } ∧
    (∀ t l, PaperTracker.load_tracked (PaperTracker.StoreFile.parsed t l)
      = Except.ok (t.getD [], l)) ∧
    (∀ c, NewsMonitor.load_config (NewsMonitor.ConfigFile.parsed c) = Except.ok c) ∧
    PaperTracker.load_tracked PaperTracker.StoreFile.unparseable
      = Except.error "json.load raised on the papers file" ∧
    NewsMonitor.load_config NewsMonitor.ConfigFile.unparseable
      = Except.error "json.load raised on the news config file" :=
  ⟨rfl, rfl, fun _ _ => rfl, fun _ => rfl, rfl, rfl⟩

/-- Claim C3: an item whose relevance score is zero is never selected and
never appears in a digest, tracked or not.  In `paper_tracker.py` every
selected paper (and in particular every rendered one) has positive score; in
`paper_tracker_v2.py` every paper returned by `fetch_arxiv_papers` — the list
the briefing renders from — has positive raw score. -/
theorem claim_C3 :
    (∀ (papers : List PaperTracker.Paper) (tracked : List String)
       (p : PaperTracker.Paper), p ∈ PaperTracker.select papers tracked → 0 < p.score) ∧
    (∀ (papers : List PaperTracker.Paper) (tracked : List String) (date : String)
       (sendOk : Bool) (p : PaperTracker.Paper),
       p ∈ (PaperTracker.pt_main papers tracked date sendOk).digestItems → 0 < p.score) ∧
    (∀ (fr : List (String × List TrackerV2.Entry)) (p : TrackerV2.Paper),
       p ∈ TrackerV2.fetch_arxiv_papers fr → 0 < p.raw_score) := by
  refine ⟨?_, ?_, ?_⟩
  · intro papers tracked p hp
    exact (PaperTracker.mem_select.mp hp).2.1
  · intro papers tracked date sendOk p hp
    by_cases h : PaperTracker.select papers tracked = []
    · rw [PaperTracker.pt_main_noop h] at hp
      cases hp
    · rw [PaperTracker.pt_main_active h] at hp
      exact (PaperTracker.mem_select.mp (List.mem_of_mem_take hp)).2.1
  · intro fr p hp
    exact (TrackerV2.mem_fetch hp).1

/-- Concrete instantiation of `claim_C3`. -/
theorem claim_C3_witness :
    0 < (⟨"2501.0001", "u", "t", "a", 1⟩ : PaperTracker.Paper).score :=
  claim_C3.1 [⟨"2501.0001", "u", "t", "a", 1⟩] [] ⟨"2501.0001", "u", "t", "a", 1⟩ (by decide)

/-- Claim C4 counterexample: in `paper_tracker_v2.py` two papers with equal
scores are ordered by ascending published-date string (the sort key is
`(-raw_score, published)`), not by descending publish date and not by
ascending identifier.  On this input both spec tie-breaks would place the
newer paper (id "1000.0001", published 2026-01-05) first — descending date
because it is newer, ascending identifier because "1000.0001" < "9999.0001" —
but the code places the older paper first. -/
theorem claim_C4_counterexample :
    (TrackerV2.fetch_arxiv_papers
        [("cs.AI",
          [⟨some "http://arxiv.org/abs/1000.0001v1", some "agent paper two",
              some "", [], some "2026-01-05"⟩,
           ⟨some "http://arxiv.org/abs/9999.0001v1", some "agent paper one",
              some "", [], some "2026-01-01"⟩])]).map
        (fun p => (p.raw_score, p.published, p.id))
      = [(1, "2026-01-01", "9999.0001"), (1, "2026-01-05", "1000.0001")] := by
  decide

/-- Claim C4 as amended: selected items are ordered by relevance score
descending; the tie-break is ascending identifier string order in
`paper_tracker.py`, but in `paper_tracker_v2.py` (the time-ordered source) it
is ascending publish-date string order — earliest first, not descending
publish date — with no identifier key at all (full ties keep fetch order by
sort stability).  `paperLe a b` states that `a` has the strictly larger
score, or scores tie and `a`'s key (id, resp. published date) is
lexicographically no larger. -/
theorem claim_C4 :
    (∀ (papers : List PaperTracker.Paper) (tracked : List String),
      (PaperTracker.select papers tracked).Pairwise PaperTracker.paperLe) ∧
    (∀ (papers : List PaperTracker.Paper) (tracked : List String),
      (PaperTracker.select papers tracked).Pairwise fun a b => b.score ≤ a.score) ∧
    (∀ fr : List (String × List TrackerV2.Entry),
      (TrackerV2.fetch_arxiv_papers fr).Pairwise TrackerV2.paperLe) ∧
    (∀ fr : List (String × List TrackerV2.Entry),
      (TrackerV2.fetch_arxiv_papers fr).Pairwise fun a b => b.raw_score ≤ a.raw_score) := by
  have hpt : ∀ (papers : List PaperTracker.Paper) (tracked : List String),
      (PaperTracker.select papers tracked).Pairwise PaperTracker.paperLe := by
    intro papers tracked
    exact List.sorted_insertionSort PaperTracker.paperLe _
  have hv2 : ∀ fr : List (String × List TrackerV2.Entry),
      (TrackerV2.fetch_arxiv_papers fr).Pairwise TrackerV2.paperLe := by
    intro fr
    have hs : (List.insertionSort TrackerV2.paperLe
        (fr.flatMap fun cr => cr.2.filterMap (TrackerV2.processEntry cr.1))).Pairwise
          TrackerV2.paperLe :=
      List.sorted_insertionSort TrackerV2.paperLe _
    have hsub : (TrackerV2.fetch_arxiv_papers fr).Sublist
        (List.insertionSort TrackerV2.paperLe
          (fr.flatMap fun cr => cr.2.filterMap (TrackerV2.processEntry cr.1))) := by
      unfold TrackerV2.fetch_arxiv_papers
      exact (List.take_sublist _ _).trans (TrackerV2.dedupById_sublist _ _)
    exact List.Pairwise.sublist hsub hs
  refine ⟨hpt, ?_, hv2, ?_⟩
  · intro papers tracked
    refine (hpt papers tracked).imp ?_
    intro a b hab
    rcases hab with h | ⟨h, _⟩
    · exact Nat.le_of_lt h
    · exact Nat.le_of_eq h.symm
  · intro fr
    refine (hv2 fr).imp ?_
    intro a b hab
    rcases hab with h | ⟨h, _⟩
    · exact Nat.le_of_lt h
    · exact Nat.le_of_eq h.symm

/-- Claim C5 counterexample: `paper_tracker_v2.py` keeps no tracking state —
its `main` loads nothing and persists nothing — so a second run on identical
fetched input is this very same pure computation: it again selects the same
relevant paper (one here) and again attempts delivery, instead of being a
no-op with no delivery attempted. -/
theorem claim_C5_counterexample :
    (TrackerV2.v2_main
        [("cs.AI", [⟨some "http://arxiv.org/abs/1000.0001v1", some "agent paper",
            some "", [], some "2026-01-01"⟩])] none "2026-01-02" true).deliveryAttempted
        = true ∧
    (TrackerV2.v2_main
        [("cs.AI", [⟨some "http://arxiv.org/abs/1000.0001v1", some "agent paper",
            some "", [], some "2026-01-01"⟩])] none "2026-01-02" true).papers.length
        = 1 := by
  constructor
  · decide
  · decide

/-- Claim C5 as amended: in `paper_tracker.py` a second run with identical
parsed input and the tracking state persisted by the first run selects
nothing and is a no-op (no message, nothing rendered, nothing printed, store
not rewritten); `paper_tracker_v2.py` however keeps no tracking state, so
each run with a non-empty relevant-paper list attempts delivery anew. -/
theorem claim_C5 :
    (∀ (papers : List PaperTracker.Paper) (tracked : List String) (date : String)
       (ok1 ok2 : Bool),
      PaperTracker.pt_main papers
          ((PaperTracker.pt_main papers tracked date ok1).saved.getD tracked) date ok2
        = { digest := none, digestItems := [], printedDigest := false, saved := none }) ∧
    (∀ (fr : List (String × List TrackerV2.Entry))
       (rr : Option TrackerV2.ReviewResult) (date : String) (sendOk : Bool),
      TrackerV2.fetch_arxiv_papers fr ≠ [] →
        (TrackerV2.v2_main fr rr date sendOk).deliveryAttempted = true) := by
  constructor
  · intro papers tracked date ok1 ok2
    by_cases h : PaperTracker.select papers tracked = []
    · rw [PaperTracker.pt_main_noop h]
      exact PaperTracker.pt_main_noop h date ok2
    · rw [PaperTracker.pt_main_active h]
      exact PaperTracker.pt_main_noop (PaperTracker.select_after_mark papers tracked) date ok2
  · intro fr rr date sendOk h
    rw [TrackerV2.v2_main_active h]

/-- Concrete instantiation of the hypothesised part of `claim_C5`. -/
theorem claim_C5_witness :
    (TrackerV2.v2_main
        [("cs.AI", [⟨some "http://arxiv.org/abs/1000.0001v1", some "llm paper",
            some "", [], some "2026-01-01"⟩])] none "2026-01-03" false).deliveryAttempted
      = true :=
  claim_C5.2
    [("cs.AI", [⟨some "http://arxiv.org/abs/1000.0001v1", some "llm paper",
        some "", [], some "2026-01-01"⟩])] none "2026-01-03" false (by decide)

/-- Claim C6: when every category yields zero selected items the run is a
no-op: no digest is built, nothing is printed as a fallback, and the store is
not rewritten (`saved = none` models the file not being touched, so the
persisted state is byte-for-byte the state loaded at the start). -/
theorem claim_C6 :
    (∀ (papers : List PaperTracker.Paper) (tracked : List String) (date : String)
       (sendOk : Bool), PaperTracker.select papers tracked = [] →
      PaperTracker.pt_main papers tracked date sendOk
        = { digest := none, digestItems := [], printedDigest := false, saved := none }) ∧
    (∀ (hnDoc : Option NewsMonitor.HNDoc) (ghDoc : Option NewsMonitor.GHDoc)
       (descFetch : String → Option String) (neuripsHtml iclrHtml : Option String)
       (lilianDoc ruderDoc : Option NewsMonitor.BlogDoc) (config : NewsMonitor.Config)
       (now : String) (sendOk : Bool),
      NewsMonitor.newHn (NewsMonitor.parse_hacker_news hnDoc) config = [] →
      NewsMonitor.newGh (NewsMonitor.parse_github_trending ghDoc descFetch) config = [] →
      NewsMonitor.newConf (NewsMonitor.parse_conferences neuripsHtml iclrHtml) config = [] →
      NewsMonitor.newBlog (NewsMonitor.parse_ai_blogs lilianDoc ruderDoc) config = [] →
      NewsMonitor.nm_main hnDoc ghDoc descFetch neuripsHtml iclrHtml lilianDoc ruderDoc
          config now sendOk
        = { new_hn := [], new_gh := [], new_conf := [], new_blog := [],
            digest := none, printedDigest := false, saved := none }) := by
  constructor
  · intro papers tracked date sendOk h
    exact PaperTracker.pt_main_noop h date sendOk
  · intro hnDoc ghDoc descFetch neuripsHtml iclrHtml lilianDoc ruderDoc config now sendOk
      h1 h2 h3 h4
    rw [NewsMonitor.nm_main_noop ⟨h1, h2, h3, h4⟩, h1, h2, h3, h4]

/-- Concrete instantiation of `claim_C6`: empty inputs give a no-op run in
both scripts. -/
theorem claim_C6_witness :
    PaperTracker.pt_main [] [] "2026-01-01" true
      = { digest := none, digestItems := [], printedDigest := false, saved := none } ∧
    NewsMonitor.nm_main none none (fun _ => none) none none none none
        ⟨[], [], [], [], none⟩ "now" true
      = { new_hn := [], new_gh := [], new_conf := [], new_blog := [],
          digest := none, printedDigest := false, saved := none } :=
  ⟨claim_C6.1 [] [] "2026-01-01" true (by decide),
   claim_C6.2 none none (fun _ => none) none none none none ⟨[], [], [], [], none⟩
     "now" true (by decide) (by decide) (by decide) (by decide)⟩

/-- Claim C7: a failed delivery changes nothing about the run except that the
digest is printed locally: the message built and the state saved are exactly
those of a successful delivery, and when items were selected the failed run
prints the digest and still saves the store with every selected item marked
(in `paper_tracker.py` the saved list is `markAll` over the full selection;
in `news_monitor.py` the config is still written). -/
theorem claim_C7 :
    (∀ (papers : List PaperTracker.Paper) (tracked : List String) (date : String),
      ((PaperTracker.pt_main papers tracked date false).saved
         = (PaperTracker.pt_main papers tracked date true).saved ∧
       (PaperTracker.pt_main papers tracked date false).digest
         = (PaperTracker.pt_main papers tracked date true).digest) ∧
      (PaperTracker.select papers tracked ≠ [] →
        (PaperTracker.pt_main papers tracked date false).printedDigest = true ∧
        (PaperTracker.pt_main papers tracked date false).saved
          = some (PaperTracker.markAll tracked (PaperTracker.select papers tracked)))) ∧
    (∀ (hnDoc : Option NewsMonitor.HNDoc) (ghDoc : Option NewsMonitor.GHDoc)
       (descFetch : String → Option String) (neuripsHtml iclrHtml : Option String)
       (lilianDoc ruderDoc : Option NewsMonitor.BlogDoc) (config : NewsMonitor.Config)
       (now : String),
      ((NewsMonitor.nm_main hnDoc ghDoc descFetch neuripsHtml iclrHtml lilianDoc ruderDoc
          config now false).saved
         = (NewsMonitor.nm_main hnDoc ghDoc descFetch neuripsHtml iclrHtml lilianDoc ruderDoc
          config now true).saved ∧
       (NewsMonitor.nm_main hnDoc ghDoc descFetch neuripsHtml iclrHtml lilianDoc ruderDoc
          config now false).digest
         = (NewsMonitor.nm_main hnDoc ghDoc descFetch neuripsHtml iclrHtml lilianDoc ruderDoc
          config now true).digest) ∧
      (¬(NewsMonitor.newHn (NewsMonitor.parse_hacker_news hnDoc) config = []
         ∧ NewsMonitor.newGh (NewsMonitor.parse_github_trending ghDoc descFetch) config = []
         ∧ NewsMonitor.newConf (NewsMonitor.parse_conferences neuripsHtml iclrHtml) config = []
         ∧ NewsMonitor.newBlog (NewsMonitor.parse_ai_blogs lilianDoc ruderDoc) config = []) →
        (NewsMonitor.nm_main hnDoc ghDoc descFetch neuripsHtml iclrHtml lilianDoc ruderDoc
          config now false).printedDigest = true ∧
        (NewsMonitor.nm_main hnDoc ghDoc descFetch neuripsHtml iclrHtml lilianDoc ruderDoc
          config now false).saved ≠ none)) := by
  constructor
  · intro papers tracked date
    constructor
    · by_cases h : PaperTracker.select papers tracked = []
      · rw [PaperTracker.pt_main_noop h date false, PaperTracker.pt_main_noop h date true]
        exact ⟨rfl, rfl⟩
      · rw [PaperTracker.pt_main_active h date false, PaperTracker.pt_main_active h date true]
        exact ⟨rfl, rfl⟩
    · intro h
      rw [PaperTracker.pt_main_active h date false]
      exact ⟨rfl, rfl⟩
  · intro hnDoc ghDoc descFetch neuripsHtml iclrHtml lilianDoc ruderDoc config now
    constructor
    · by_cases h : NewsMonitor.newHn (NewsMonitor.parse_hacker_news hnDoc) config = []
         ∧ NewsMonitor.newGh (NewsMonitor.parse_github_trending ghDoc descFetch) config = []
         ∧ NewsMonitor.newConf (NewsMonitor.parse_conferences neuripsHtml iclrHtml) config = []
         ∧ NewsMonitor.newBlog (NewsMonitor.parse_ai_blogs lilianDoc ruderDoc) config = []
      · rw [NewsMonitor.nm_main_noop h, NewsMonitor.nm_main_noop h]
        exact ⟨rfl, rfl⟩
      · rw [NewsMonitor.nm_main_active h, NewsMonitor.nm_main_active h]
        exact ⟨rfl, rfl⟩
    · intro h
      rw [NewsMonitor.nm_main_active h]
      refine ⟨rfl, ?_⟩
      intro hno
      cases hno

/-- Concrete instantiation of `claim_C7`: with one selected item and failed
delivery, the paper tracker prints the digest and still saves the marked
store, and the news monitor prints the digest and still writes the config. -/
theorem claim_C7_witness :
    ((PaperTracker.pt_main [⟨"2501.0001", "u", "t", "a", 2⟩] [] "d" false).printedDigest = true ∧
     (PaperTracker.pt_main [⟨"2501.0001", "u", "t", "a", 2⟩] [] "d" false).saved
       = some (PaperTracker.markAll []
           (PaperTracker.select [⟨"2501.0001", "u", "t", "a", 2⟩] []))) ∧
    ((NewsMonitor.nm_main (some ⟨[("http://u", "ai story", 5)]⟩) none (fun _ => none)
        none none none none ⟨[], [], [], [], none⟩ "now" false).printedDigest = true ∧
     (NewsMonitor.nm_main (some ⟨[("http://u", "ai story", 5)]⟩) none (fun _ => none)
        none none none none ⟨[], [], [], [], none⟩ "now" false).saved ≠ none) :=
  ⟨(claim_C7.1 [⟨"2501.0001", "u", "t", "a", 2⟩] [] "d").2 (by decide),
   (claim_C7.2 (some ⟨[("http://u", "ai story", 5)]⟩) none (fun _ => none)
      none none none none ⟨[], [], [], [], none⟩ "now").2 (by decide)⟩

namespace PaperTracker

theorem pt_saved_getD (papers : List Paper) (tracked : List String) (date : String)
    (sendOk : Bool) :
    (pt_main papers tracked date sendOk).saved.getD tracked
      = markAll tracked (select papers tracked) := by
  by_cases h : select papers tracked = []
  · rw [pt_main_noop h, h]
    rfl
  · rw [pt_main_active h]
    rfl

end PaperTracker

/-- Claim C8 counterexample: in `paper_tracker.py` an absent raw document
(failed upstream fetch) does not yield an empty item sequence — the fetch
subprocess is run with `check=True` and no handler, so `CalledProcessError`
propagates and the whole run aborts before the adapter is ever invoked. -/
theorem claim_C8_counterexample :
    PaperTracker.pt_run none [] "2026-01-01" true
      = Except.error "subprocess.run raised CalledProcessError" := rfl

/-- Claim C8 as amended: in `news_monitor.py` an absent raw document makes
every adapter return the empty sequence, the failure is isolated to that
source (the other categories' new-item lists do not depend on it) and does
not abort the run; but in `paper_tracker.py` a failed arXiv fetch raises out
of `main` and aborts the run — its adapter is never invoked on an absent
document. -/
theorem claim_C8 :
    NewsMonitor.parse_hacker_news none = [] ∧
    (∀ descFetch : String → Option String,
      NewsMonitor.parse_github_trending none descFetch = []) ∧
    NewsMonitor.parse_conferences none none = [] ∧
    (∀ name url : String, NewsMonitor.parse_blog name url none = []) ∧
    NewsMonitor.parse_ai_blogs none none = [] ∧
    (∀ (hnDoc hnDoc2 : Option NewsMonitor.HNDoc) (ghDoc : Option NewsMonitor.GHDoc)
       (descFetch : String → Option String) (neuripsHtml iclrHtml : Option String)
       (lilianDoc ruderDoc : Option NewsMonitor.BlogDoc) (config : NewsMonitor.Config)
       (now : String) (sendOk : Bool),
      (NewsMonitor.nm_main hnDoc ghDoc descFetch neuripsHtml iclrHtml lilianDoc ruderDoc
          config now sendOk).new_gh
        = (NewsMonitor.nm_main hnDoc2 ghDoc descFetch neuripsHtml iclrHtml lilianDoc ruderDoc
          config now sendOk).new_gh ∧
      (NewsMonitor.nm_main hnDoc ghDoc descFetch neuripsHtml iclrHtml lilianDoc ruderDoc
          config now sendOk).new_conf
        = (NewsMonitor.nm_main hnDoc2 ghDoc descFetch neuripsHtml iclrHtml lilianDoc ruderDoc
          config now sendOk).new_conf ∧
      (NewsMonitor.nm_main hnDoc ghDoc descFetch neuripsHtml iclrHtml lilianDoc ruderDoc
          config now sendOk).new_blog
        = (NewsMonitor.nm_main hnDoc2 ghDoc descFetch neuripsHtml iclrHtml lilianDoc ruderDoc
          config now sendOk).new_blog ∧
      (NewsMonitor.nm_main none ghDoc descFetch neuripsHtml iclrHtml lilianDoc ruderDoc
          config now sendOk).new_hn = []) ∧
    (∀ (tracked : List String) (date : String) (sendOk : Bool),
      PaperTracker.pt_run none tracked date sendOk
        = Except.error "subprocess.run raised CalledProcessError") := by
  refine ⟨rfl, fun _ => rfl, rfl, fun _ _ => rfl, rfl, ?_, fun _ _ _ => rfl⟩
  intro hnDoc hnDoc2 ghDoc descFetch neuripsHtml iclrHtml lilianDoc ruderDoc config now sendOk
  obtain ⟨f1, f2, f3, f4⟩ := NewsMonitor.nm_main_fields hnDoc ghDoc descFetch
    neuripsHtml iclrHtml lilianDoc ruderDoc config now sendOk
  obtain ⟨g1, g2, g3, g4⟩ := NewsMonitor.nm_main_fields hnDoc2 ghDoc descFetch
    neuripsHtml iclrHtml lilianDoc ruderDoc config now sendOk
  obtain ⟨n1, _, _, _⟩ := NewsMonitor.nm_main_fields none ghDoc descFetch
    neuripsHtml iclrHtml lilianDoc ruderDoc config now sendOk
  refine ⟨?_, ?_, ?_, ?_⟩
  · rw [f2, g2]
  · rw [f3, g3]
  · rw [f4, g4]
  · rw [n1]
    rfl

/-- Claim C9: after a run, every selected item's identifier is in the tracked
state under its category, the tracked state only grows, and reloading what
was saved shows exactly that state.  `saved.getD` is the state on disk after
the run: the newly written one when the store was rewritten, the loaded one
otherwise. -/
theorem claim_C9 :
    (∀ (papers : List PaperTracker.Paper) (tracked : List String) (date : String)
       (sendOk : Bool),
      (∀ p ∈ PaperTracker.select papers tracked,
        p.id ∈ (PaperTracker.pt_main papers tracked date sendOk).saved.getD tracked) ∧
      (∀ x ∈ tracked,
        x ∈ (PaperTracker.pt_main papers tracked date sendOk).saved.getD tracked) ∧
      PaperTracker.load_tracked
          (PaperTracker.save_tracked
            ((PaperTracker.pt_main papers tracked date sendOk).saved.getD tracked) date)
        = Except.ok
            ((PaperTracker.pt_main papers tracked date sendOk).saved.getD tracked,
             some date)) ∧
    (∀ (hnDoc : Option NewsMonitor.HNDoc) (ghDoc : Option NewsMonitor.GHDoc)
       (descFetch : String → Option String) (neuripsHtml iclrHtml : Option String)
       (lilianDoc ruderDoc : Option NewsMonitor.BlogDoc) (config : NewsMonitor.Config)
       (now : String) (sendOk : Bool),
      (∀ s ∈ (NewsMonitor.nm_main hnDoc ghDoc descFetch neuripsHtml iclrHtml lilianDoc
          ruderDoc config now sendOk).new_hn,
        s.url ∈ ((NewsMonitor.nm_main hnDoc ghDoc descFetch neuripsHtml iclrHtml lilianDoc
          ruderDoc config now sendOk).saved.getD config).tracked_hn) ∧
      (∀ r ∈ (NewsMonitor.nm_main hnDoc ghDoc descFetch neuripsHtml iclrHtml lilianDoc
          ruderDoc config now sendOk).new_gh,
        r.url ∈ ((NewsMonitor.nm_main hnDoc ghDoc descFetch neuripsHtml iclrHtml lilianDoc
          ruderDoc config now sendOk).saved.getD config).tracked_gh) ∧
      (∀ c ∈ (NewsMonitor.nm_main hnDoc ghDoc descFetch neuripsHtml iclrHtml lilianDoc
          ruderDoc config now sendOk).new_conf,
        c.url ∈ ((NewsMonitor.nm_main hnDoc ghDoc descFetch neuripsHtml iclrHtml lilianDoc
          ruderDoc config now sendOk).saved.getD config).tracked_conf) ∧
      (∀ b ∈ (NewsMonitor.nm_main hnDoc ghDoc descFetch neuripsHtml iclrHtml lilianDoc
          ruderDoc config now sendOk).new_blog,
        b.url ∈ ((NewsMonitor.nm_main hnDoc ghDoc descFetch neuripsHtml iclrHtml lilianDoc
          ruderDoc config now sendOk).saved.getD config).tracked_blog) ∧
      (∀ x ∈ config.tracked_hn,
        x ∈ ((NewsMonitor.nm_main hnDoc ghDoc descFetch neuripsHtml iclrHtml lilianDoc
          ruderDoc config now sendOk).saved.getD config).tracked_hn) ∧
      (∀ x ∈ config.tracked_gh,
        x ∈ ((NewsMonitor.nm_main hnDoc ghDoc descFetch neuripsHtml iclrHtml lilianDoc
          ruderDoc config now sendOk).saved.getD config).tracked_gh) ∧
      (∀ x ∈ config.tracked_conf,
        x ∈ ((NewsMonitor.nm_main hnDoc ghDoc descFetch neuripsHtml iclrHtml lilianDoc
          ruderDoc config now sendOk).saved.getD config).tracked_conf) ∧
      (∀ x ∈ config.tracked_blog,
        x ∈ ((NewsMonitor.nm_main hnDoc ghDoc descFetch neuripsHtml iclrHtml lilianDoc
          ruderDoc config now sendOk).saved.getD config).tracked_blog) ∧
      (∀ c : NewsMonitor.Config,
        NewsMonitor.load_config (NewsMonitor.save_config c) = Except.ok c)) := by
  constructor
  · intro papers tracked date sendOk
    rw [PaperTracker.pt_saved_getD]
    exact ⟨fun p hp => PaperTracker.mem_markAll_of_mem_ps hp,
           fun x hx => PaperTracker.mem_markAll_of_mem hx, rfl⟩
  · intro hnDoc ghDoc descFetch neuripsHtml iclrHtml lilianDoc ruderDoc config now sendOk
    by_cases h : NewsMonitor.newHn (NewsMonitor.parse_hacker_news hnDoc) config = []
         ∧ NewsMonitor.newGh (NewsMonitor.parse_github_trending ghDoc descFetch) config = []
         ∧ NewsMonitor.newConf (NewsMonitor.parse_conferences neuripsHtml iclrHtml) config = []
         ∧ NewsMonitor.newBlog (NewsMonitor.parse_ai_blogs lilianDoc ruderDoc) config = []
    · rw [NewsMonitor.nm_main_noop h]
      obtain ⟨h1, h2, h3, h4⟩ := h
      rw [h1, h2, h3, h4]
      exact ⟨fun s hs => absurd hs (List.not_mem_nil s),
             fun r hr => absurd hr (List.not_mem_nil r),
             fun c hc => absurd hc (List.not_mem_nil c),
             fun b hb => absurd hb (List.not_mem_nil b),
             fun x hx => hx, fun x hx => hx, fun x hx => hx, fun x hx => hx,
             fun c => rfl⟩
    · rw [NewsMonitor.nm_main_active h]
      exact ⟨fun s hs => List.mem_append_right _ (List.mem_map_of_mem _ hs),
             fun r hr => List.mem_append_right _ (List.mem_map_of_mem _ hr),
             fun c hc => List.mem_append_right _ (List.mem_map_of_mem _ hc),
             fun b hb => List.mem_append_right _ (List.mem_map_of_mem _ hb),
             fun x hx => List.mem_append_left _ hx,
             fun x hx => List.mem_append_left _ hx,
             fun x hx => List.mem_append_left _ hx,
             fun x hx => List.mem_append_left _ hx,
             fun c => rfl⟩

/-- Concrete instantiation of `claim_C9`: the selected paper's id and the
previously tracked id are both in the saved store; a previously tracked news
url stays tracked after a no-op run. -/
theorem claim_C9_witness :
    ((⟨"2501.0001", "u", "agent", "a", 1⟩ : PaperTracker.Paper).id
        ∈ (PaperTracker.pt_main [⟨"2501.0001", "u", "agent", "a", 1⟩] ["old.id"] "d"
            true).saved.getD ["old.id"] ∧
     "old.id" ∈ (PaperTracker.pt_main [⟨"2501.0001", "u", "agent", "a", 1⟩] ["old.id"] "d"
            true).saved.getD ["old.id"]) ∧
    "http://u" ∈ ((NewsMonitor.nm_main none none (fun _ => none) none none none none
        ⟨["http://u"], [], [], [], none⟩ "now" true).saved.getD
          ⟨["http://u"], [], [], [], none⟩).tracked_hn :=
  ⟨⟨(claim_C9.1 [⟨"2501.0001", "u", "agent", "a", 1⟩] ["old.id"] "d" true).1
      ⟨"2501.0001", "u", "agent", "a", 1⟩ (by decide),
    (claim_C9.1 [⟨"2501.0001", "u", "agent", "a", 1⟩] ["old.id"] "d" true).2.1
      "old.id" (by decide)⟩,
   (claim_C9.2 none none (fun _ => none) none none none none
      ⟨["http://u"], [], [], [], none⟩ "now" true).2.2.2.2.1 "http://u" (by decide)⟩

/-- Claim C10: when a run of `paper_tracker.py` selects more than 5 relevant
papers, the digest renders only the 5 first-ranked ones while the marking
loop runs over the whole selection, so every paper ranked beyond the display
cap is recorded as delivered without having appeared in this digest and is
excluded from the selection of every future run against the saved state.
The distinct-identifier hypothesis is the spec's own invariant that an
identifier is unique within its category. -/
theorem claim_C10 :
    ∀ (papers : List PaperTracker.Paper) (tracked : List String) (date : String)
      (sendOk : Bool),
      ((PaperTracker.select papers tracked).map PaperTracker.Paper.id).Nodup →
      5 < (PaperTracker.select papers tracked).length →
      (PaperTracker.pt_main papers tracked date sendOk).digestItems
          = (PaperTracker.select papers tracked).take 5 ∧
      ∀ p ∈ (PaperTracker.select papers tracked).drop 5,
        p ∉ (PaperTracker.pt_main papers tracked date sendOk).digestItems ∧
        p.id ∈ (PaperTracker.pt_main papers tracked date sendOk).saved.getD tracked ∧
        ∀ papers2 : List PaperTracker.Paper,
          p ∉ PaperTracker.select papers2
              ((PaperTracker.pt_main papers tracked date sendOk).saved.getD tracked) := by
  intro papers tracked date sendOk hnodup hlen
  have hne : PaperTracker.select papers tracked ≠ [] := by
    intro h
    rw [h] at hlen
    simp at hlen
  have hdig : (PaperTracker.pt_main papers tracked date sendOk).digestItems
      = (PaperTracker.select papers tracked).take 5 := by
    rw [PaperTracker.pt_main_active hne]
  refine ⟨hdig, ?_⟩
  intro p hp
  have hpsel : p ∈ PaperTracker.select papers tracked := List.mem_of_mem_drop hp
  have hsaved : p.id ∈ (PaperTracker.pt_main papers tracked date sendOk).saved.getD tracked := by
    rw [PaperTracker.pt_saved_getD]
    exact PaperTracker.mem_markAll_of_mem_ps hpsel
  refine ⟨?_, hsaved, fun papers2 => PaperTracker.not_mem_select_of_tracked hsaved⟩
  rw [hdig]
  intro htk
  have hnodup2 : (((PaperTracker.select papers tracked).take 5).map PaperTracker.Paper.id
      ++ ((PaperTracker.select papers tracked).drop 5).map PaperTracker.Paper.id).Nodup := by
    rw [← List.map_append, List.take_append_drop]
    exact hnodup
  have hdisj := (List.nodup_append.mp hnodup2).2.2
  exact hdisj (List.mem_map_of_mem _ htk) (List.mem_map_of_mem _ hp)

/-- Concrete instantiation of `claim_C10`: six untracked score-1 papers; the
sixth in rank order ("f") is absent from the rendered items, present in the
saved store, and not selected by a later run against that store. -/
theorem claim_C10_witness :
    (PaperTracker.pt_main
        [⟨"a", "u", "t", "s", 1⟩, ⟨"b", "u", "t", "s", 1⟩, ⟨"c", "u", "t", "s", 1⟩,
         ⟨"d", "u", "t", "s", 1⟩, ⟨"e", "u", "t", "s", 1⟩, ⟨"f", "u", "t", "s", 1⟩]
        [] "d" true).digestItems
      = (PaperTracker.select
        [⟨"a", "u", "t", "s", 1⟩, ⟨"b", "u", "t", "s", 1⟩, ⟨"c", "u", "t", "s", 1⟩,
         ⟨"d", "u", "t", "s", 1⟩, ⟨"e", "u", "t", "s", 1⟩, ⟨"f", "u", "t", "s", 1⟩]
        []).take 5 ∧
    (⟨"f", "u", "t", "s", 1⟩ : PaperTracker.Paper)
      ∉ (PaperTracker.pt_main
        [⟨"a", "u", "t", "s", 1⟩, ⟨"b", "u", "t", "s", 1⟩, ⟨"c", "u", "t", "s", 1⟩,
         ⟨"d", "u", "t", "s", 1⟩, ⟨"e", "u", "t", "s", 1⟩, ⟨"f", "u", "t", "s", 1⟩]
        [] "d" true).digestItems ∧
    (⟨"f", "u", "t", "s", 1⟩ : PaperTracker.Paper).id
      ∈ (PaperTracker.pt_main
        [⟨"a", "u", "t", "s", 1⟩, ⟨"b", "u", "t", "s", 1⟩, ⟨"c", "u", "t", "s", 1⟩,
         ⟨"d", "u", "t", "s", 1⟩, ⟨"e", "u", "t", "s", 1⟩, ⟨"f", "u", "t", "s", 1⟩]
        [] "d" true).saved.getD [] ∧
    (⟨"f", "u", "t", "s", 1⟩ : PaperTracker.Paper)
      ∉ PaperTracker.select []
          ((PaperTracker.pt_main
            [⟨"a", "u", "t", "s", 1⟩, ⟨"b", "u", "t", "s", 1⟩, ⟨"c", "u", "t", "s", 1⟩,
             ⟨"d", "u", "t", "s", 1⟩, ⟨"e", "u", "t", "s", 1⟩, ⟨"f", "u", "t", "s", 1⟩]
            [] "d" true).saved.getD []) :=
  ⟨(claim_C10
      [⟨"a", "u", "t", "s", 1⟩, ⟨"b", "u", "t", "s", 1⟩, ⟨"c", "u", "t", "s", 1⟩,
       ⟨"d", "u", "t", "s", 1⟩, ⟨"e", "u", "t", "s", 1⟩, ⟨"f", "u", "t", "s", 1⟩]
      [] "d" true (by decide) (by decide)).1,
   ((claim_C10
      [⟨"a", "u", "t", "s", 1⟩, ⟨"b", "u", "t", "s", 1⟩, ⟨"c", "u", "t", "s", 1⟩,
       ⟨"d", "u", "t", "s", 1⟩, ⟨"e", "u", "t", "s", 1⟩, ⟨"f", "u", "t", "s", 1⟩]
      [] "d" true (by decide) (by decide)).2 ⟨"f", "u", "t", "s", 1⟩ (by decide)).1,
   ((claim_C10
      [⟨"a", "u", "t", "s", 1⟩, ⟨"b", "u", "t", "s", 1⟩, ⟨"c", "u", "t", "s", 1⟩,
       ⟨"d", "u", "t", "s", 1⟩, ⟨"e", "u", "t", "s", 1⟩, ⟨"f", "u", "t", "s", 1⟩]
      [] "d" true (by decide) (by decide)).2 ⟨"f", "u", "t", "s", 1⟩ (by decide)).2.1,
   ((claim_C10
      [⟨"a", "u", "t", "s", 1⟩, ⟨"b", "u", "t", "s", 1⟩, ⟨"c", "u", "t", "s", 1⟩,
       ⟨"d", "u", "t", "s", 1⟩, ⟨"e", "u", "t", "s", 1⟩, ⟨"f", "u", "t", "s", 1⟩]
      [] "d" true (by decide) (by decide)).2 ⟨"f", "u", "t", "s", 1⟩ (by decide)).2.2 []⟩
